import Mathlib

/-!
Verification of `scripts/fetch_data.py`, the Nikkei-225 heatmap generator.

The script fetches closing prices for a roster of stocks, computes the
day-over-day percentage change, classifies each stock into a color bucket,
and renders a self-contained HTML page; the page embeds the dataset and a
JavaScript re-renderer (`getColor`, `getTextColor`, `makeTile`, `sortBy`)
that must stay behaviorally consistent with the Python side.

Numbers are modelled as rationals `ℚ` (all comparisons in the code are
against small integer thresholds, so `ℚ` is a faithful executable proxy for
the floating point values; NaN never arises on the inputs considered here).
"Missing" values (`None` in Python, `null` in JavaScript, NaN rows dropped
by `dropna`) are modelled with `Option`.
-/

/-- A roster entry, as loaded from `nikkei225.csv` (`load_stock_list`):
code, display name and sector. -/
structure StockRef where
  code : String
  name : String
  sector : String
deriving DecidableEq, Repr

/-- One entry of the list returned by `fetch_price_data`: the roster fields
(spread with `{**stock, ...}`) plus `price` and `change_pct`, each a number
or `None`. -/
structure Result extends StockRef where
  price : Option ℚ
  change_pct : Option ℚ
deriving DecidableEq, Repr

/-- The batch response of `yf.download(ticker_str, period="5d", ...)`.
`grouped c` models the access `data[c]` followed by `["Close"]`: `none`
means the lookup raises (symbol absent from the batch result or malformed
structure), `some series` is the close column, whose `none` entries are the
NaN rows removed by `dropna`.  `single` models the ungrouped frame used
when exactly one ticker was requested (`len(tickers) == 1`), accessed as
`data["Close"]` directly. -/
structure BatchData where
  single : Option (List (Option ℚ))
  grouped : String → Option (List (Option ℚ))

/-- `tickers = [s["code"] for s in stocks]`. -/
def tickersOf (stocks : List StockRef) : List String :=
  stocks.map (fun s => s.code)

/-- The close series the loop body works on for one symbol: the whole frame
when a single ticker was requested, otherwise the per-ticker sub-frame
(`data` vs `data[code]`), with `none` when the access raises. -/
def seriesFor (tickers : List String) (data : BatchData) (code : String) :
    Option (List (Option ℚ)) :=
  if tickers.length == 1 then data.single else data.grouped code

/-- One iteration of the loop in `fetch_price_data`: drop missing entries
(`dropna`), and if at least two closes remain take
`change_pct = ((last - prev) / prev) * 100` and `price = last`; otherwise,
or when the lookup raised (`except Exception`), append the record with
`price = None, change_pct = None`. -/
def resolve_one (tickers : List String) (data : BatchData) (stock : StockRef) :
    Result :=
  match seriesFor tickers data stock.code with
  | none => { toStockRef := stock, price := none, change_pct := none }
  | some series =>
    let closes := series.filterMap id
    if 2 ≤ closes.length then
      let prev_close := closes.getD (closes.length - 2) 0
      let last_close := closes.getD (closes.length - 1) 0
      { toStockRef := stock,
        price := some last_close,
        change_pct := some (((last_close - prev_close) / prev_close) * 100) }
    else
      { toStockRef := stock, price := none, change_pct := none }

/-- `fetch_price_data`: one result per roster entry, in roster order. -/
def fetch_price_data (stocks : List StockRef) (data : BatchData) : List Result :=
  stocks.map (resolve_one (tickersOf stocks) data)

/-- Python `get_color`: background color from the change percentage. -/
def get_color (change_pct : Option ℚ) : String :=
  match change_pct with
  | none => "#9E9E9E"
  | some c =>
    if 3 ≤ c then "#00873E"
    else if 1 ≤ c then "#4CAF50"
    else if 0 ≤ c then "#C8E6C9"
    else if -1 ≤ c then "#FFCDD2"
    else if -3 ≤ c then "#F44336"
    else "#B71C1C"

/-- Python `get_text_color`: text color from the change percentage. -/
def get_text_color (change_pct : Option ℚ) : String :=
  match change_pct with
  | none => "#FFFFFF"
  | some c =>
    if 3 ≤ c ∨ c ≤ -3 then "#FFFFFF"
    else if 1 ≤ c ∨ c ≤ -1 then "#FFFFFF"
    else "#333333"

/-- JavaScript `getColor` embedded in the generated page. -/
def getColor (pct : Option ℚ) : String :=
  match pct with
  | none => "#9E9E9E"
  | some c =>
    if 3 ≤ c then "#00873E"
    else if 1 ≤ c then "#4CAF50"
    else if 0 ≤ c then "#C8E6C9"
    else if -1 ≤ c then "#FFCDD2"
    else if -3 ≤ c then "#F44336"
    else "#B71C1C"

/-- JavaScript `getTextColor` embedded in the generated page. -/
def getTextColor (pct : Option ℚ) : String :=
  match pct with
  | none => "#FFFFFF"
  | some c =>
    if 3 ≤ c ∨ c ≤ -3 then "#FFFFFF"
    else if 1 ≤ c ∨ c ≤ -1 then "#FFFFFF"
    else "#333333"

/-- The server-side classification of one change percentage: the
(backgroundColor, textColor) pair used for a tile. -/
def classify (change_pct : Option ℚ) : String × String :=
  (get_color change_pct, get_text_color change_pct)

/-- The client-side classification of one change percentage. -/
def classifyJS (pct : Option ℚ) : String × String :=
  (getColor pct, getTextColor pct)

/-- Two-decimal rendering of `|v|` after rounding `v * 100` to an integer
(decimal rounding details of the binary floats are immaterial here: no claim
constrains the digits, only the `None` branches of the renderers). -/
def fmt2 (v : ℚ) : String :=
  let a : ℕ := (round (v * 100)).natAbs
  toString (a / 100) ++ "." ++ (if a % 100 < 10 then "0" else "") ++ toString (a % 100)

/-- Python `f-string` `{v:+.2f}` followed by `%`: explicit sign, two
decimals. -/
def pyChangeStr (v : ℚ) : String :=
  (if v < 0 then "-" else "+") ++ fmt2 |v| ++ "%"

/-- JavaScript `(pct >= 0 ? '+' : '') + pct.toFixed(2) + '%'`: `toFixed`
renders the minus sign itself. -/
def jsChangeStr (v : ℚ) : String :=
  (if 0 ≤ v then "+" else "") ++ (if v < 0 then "-" else "") ++ fmt2 |v| ++ "%"

/-- Comma-group a digit string (reversed input): three digits, comma,
recurse.  Models the thousands separators of `{:,.0f}` and
`toLocaleString('ja-JP')`. -/
def commaGroupRev : List Char → List Char
  | [] => []
  | [a] => [a]
  | [a, b] => [a, b]
  | [a, b, c] => [a, b, c]
  | a :: b :: c :: d :: rest => a :: b :: c :: ',' :: commaGroupRev (d :: rest)

/-- `¥` plus the price rounded to 0 decimals with thousands separators
(Python `f'¥{price:,.0f}'`; JavaScript
`'¥' + price.toLocaleString('ja-JP', {maximumFractionDigits: 0})`). -/
def yenStr (p : ℚ) : String :=
  let n := round p
  "¥" ++ (if n < 0 then "-" else "") ++
    String.mk (commaGroupRev (toString n.natAbs).toList.reverse).reverse

/-- The four data-dependent pieces of one rendered tile: background color,
text color, the change line and the price line. -/
structure TileParts where
  bg : String
  fg : String
  change_str : String
  price_str : String
deriving DecidableEq, Repr

/-- The tile pieces computed by the server-side loop in `generate_html`
(lines 115–118): `bg`, `fg`, `change_str = f'{...:+.2f}%'` or `"N/A"` when
`change_pct is None`, `price_str = f'¥{...:,.0f}'` or `""` when
`price is None`. -/
def serverTileParts (r : Result) : TileParts :=
  { bg := get_color r.change_pct,
    fg := get_text_color r.change_pct,
    change_str := match r.change_pct with
      | some v => pyChangeStr v
      | none => "N/A",
    price_str := match r.price with
      | some p => yenStr p
      | none => "" }

/-- The tile pieces computed by the embedded JavaScript `makeTile`:
`change = ... : 'N/A'` when `change_pct === null`, `price = ... : ''` when
`price === null`. -/
def clientTileParts (s : Result) : TileParts :=
  { bg := getColor s.change_pct,
    fg := getTextColor s.change_pct,
    change_str := match s.change_pct with
      | some v => jsChangeStr v
      | none => "N/A",
    price_str := match s.price with
      | some p => yenStr p
      | none => "" }

/-- The member records of one sector, in input order (both the Python dict
building and the JavaScript `groups` building append in iteration order). -/
def membersOf (results : List Result) (s : String) : List Result :=
  results.filter (fun r => r.sector == s)

/-- The sector keys in first-occurrence order: Python dict keys iterate in
insertion order; `Object.keys` on the JavaScript side likewise for the
non-index string keys used here (sector names). -/
def sectorKeys (results : List Result) : List String :=
  results.foldl (fun acc r => if r.sector ∈ acc then acc else acc ++ [r.sector]) []

/-- Python `min(r["code"] for r in sectors[s])`: the lexicographically
smallest code string of a sector's members (Python compares strings by code
point, as Lean's `String` order does). -/
def minCodeStr (results : List Result) (s : String) : String :=
  match (membersOf results s).map (fun r => r.code) with
  | [] => ""
  | c :: cs => cs.foldl min c

/-- `sector_order = sorted(sectors.keys(), key=lambda s: min(...))`:
Python `sorted` is a stable sort, modelled by `List.insertionSort` (the
stable sort of the key preorder). -/
def sector_order (results : List Result) : List String :=
  List.insertionSort (fun a b => minCodeStr results a ≤ minCodeStr results b)
    (sectorKeys results)

/-- `sorted(sectors[sector], key=lambda x: x["code"])`: a sector's tiles in
ascending code order, server side. -/
def serverSectorTiles (results : List Result) (s : String) : List Result :=
  List.insertionSort (fun a b => a.code ≤ b.code) (membersOf results s)

/-- `r["code"].replace(".T", "")`: the code stripped for the embedded
dataset. -/
def stripT (s : String) : String := s.replace ".T" ""

/-- The dataset serialized into the page (`json_data`): same records, codes
stripped of the `.T` suffix. -/
def stockData (results : List Result) : List Result :=
  results.map (fun r => { r with code := stripT r.code })

/-- JavaScript `parseInt`: the leading run of decimal digits as a number.
(`parseInt` also accepts signs and whitespace and yields NaN when no digit
leads; the codes here are digit strings, so the model returns the digits'
value and an unclaimed `0` in the no-digit case.) -/
def parseIntJS (s : String) : ℕ :=
  (s.toList.takeWhile Char.isDigit).foldl (fun acc c => 10 * acc + (c.toNat - 48)) 0

/-- `Math.min(...groups[s].map(s => parseInt(s.code)))`: the numerically
smallest parsed code of a sector's members. -/
def minNumCode (data : List Result) (s : String) : ℕ :=
  match (membersOf data s).map (fun r => parseIntJS r.code) with
  | [] => 0
  | n :: ns => ns.foldl min n

/-- The client-side `sector` mode's sector order: keys sorted by the
comparator `minA - minB` over the embedded dataset (`Array.prototype.sort`
is stable, modelled by `List.insertionSort`). -/
def clientSectorOrder (results : List Result) : List String :=
  List.insertionSort
    (fun a b => minNumCode (stockData results) a ≤ minNumCode (stockData results) b)
    (sectorKeys (stockData results))

/-- `groups[sector].sort((a, b) => a.code.localeCompare(b.code))`: a
sector's tiles in ascending code order, client side (over stripped codes). -/
def clientSectorItems (results : List Result) (s : String) : List Result :=
  List.insertionSort (fun a b => a.code ≤ b.code) (membersOf (stockData results) s)

/-- `(x.change_pct || 0)`: the sort key of the change-ordered client views;
`null` (and `0` itself) coerces to `0`. -/
def changeKey (r : Result) : ℚ := r.change_pct.getD 0

/-- Client `change_desc` mode: `sort((a, b) => (b.change_pct || 0) - (a.change_pct || 0))`,
i.e. stable-descending in `changeKey`. -/
def sortChangeDesc (data : List Result) : List Result :=
  List.insertionSort (fun a b => changeKey b ≤ changeKey a) data

/-- Client `change_asc` mode: `sort((a, b) => (a.change_pct || 0) - (b.change_pct || 0))`,
i.e. stable-ascending in `changeKey`. -/
def sortChangeAsc (data : List Result) : List Result :=
  List.insertionSort (fun a b => changeKey a ≤ changeKey b) data

/-- Replace an absent `change_pct` by `0` and keep present values: the
substitution the "absent sorts as zero" claim speaks about. -/
def substZero (r : Result) : Result :=
  { r with change_pct := some (changeKey r) }

/-- The result appended for a degraded symbol:
`{**stock, "price": None, "change_pct": None}`. -/
def absentResult (s : StockRef) : Result :=
  { toStockRef := s, price := none, change_pct := none }

/-- How many valid closes the loop body sees for a code: `0` when the
lookup raises, else the length after `dropna`. -/
def validCloses (tickers : List String) (data : BatchData) (code : String) : ℕ :=
  match seriesFor tickers data code with
  | none => 0
  | some series => (series.filterMap id).length

/-- A symbol is bad exactly when its resolution degrades: the lookup raises
or fewer than two valid closes remain. -/
def badFor (tickers : List String) (data : BatchData) (code : String) : Prop :=
  validCloses tickers data code < 2

/-- The seven background colors: neutral gray plus the six buckets. -/
def sevenColors : List String :=
  ["#9E9E9E", "#00873E", "#4CAF50", "#C8E6C9", "#FFCDD2", "#F44336", "#B71C1C"]

/-- The bucket index of a numeric change, `0` = dark red … `5` = dark
green, read off `get_color`'s cascade. -/
def bucket (c : ℚ) : ℕ :=
  if 3 ≤ c then 5
  else if 1 ≤ c then 4
  else if 0 ≤ c then 3
  else if -1 ≤ c then 2
  else if -3 ≤ c then 1
  else 0

/-- The background color of each bucket index. -/
def bucketColor (n : ℕ) : String :=
  match n with
  | 5 => "#00873E"
  | 4 => "#4CAF50"
  | 3 => "#C8E6C9"
  | 2 => "#FFCDD2"
  | 1 => "#F44336"
  | _ => "#B71C1C"

/-- Modelled from the spec: the §4.3 classification table, written as
interval conditions row by row, with the one amendment the code forces —
at exactly `-1` the text color is white, the dark-gray text rows being
`[0, 1)` and the open interval `(-1, 0)`. -/
def classifySpecTable (change_pct : Option ℚ) : String × String :=
  match change_pct with
  | none => ("#9E9E9E", "#FFFFFF")
  | some c =>
    if 3 ≤ c then ("#00873E", "#FFFFFF")
    else if 1 ≤ c then ("#4CAF50", "#FFFFFF")
    else if 0 ≤ c then ("#C8E6C9", "#333333")
    else if c = -1 then ("#FFCDD2", "#FFFFFF")
    else if -1 < c then ("#FFCDD2", "#333333")
    else if -3 ≤ c then ("#F44336", "#FFFFFF")
    else ("#B71C1C", "#FFFFFF")

/-- Sorting by a key into a linear order yields a list sorted in that key. -/
theorem sorted_insertionSort_key {α β : Type} [LinearOrder β] (k : α → β)
    (l : List α) :
    (List.insertionSort (fun a b => k a ≤ k b) l).Sorted
      (fun a b => k a ≤ k b) := by
  haveI : IsTotal α (fun a b => k a ≤ k b) := ⟨fun a b => le_total (k a) (k b)⟩
  haveI : IsTrans α (fun a b => k a ≤ k b) := ⟨fun _ _ _ h1 h2 => le_trans h1 h2⟩
  exact List.sorted_insertionSort _ l

/-- `orderedInsert` commutes with a map that preserves the comparisons. -/
theorem orderedInsert_map_of_rel {α : Type} (r : α → α → Prop) [DecidableRel r]
    (f : α → α) (hf : ∀ x y, r (f x) (f y) ↔ r x y) (a : α) :
    ∀ l : List α,
      List.orderedInsert r (f a) (l.map f) = (List.orderedInsert r a l).map f
  | [] => rfl
  | b :: l => by
    simp only [List.map_cons, List.orderedInsert]
    by_cases h : r a b
    · rw [if_pos ((hf a b).mpr h), if_pos h, List.map_cons, List.map_cons]
    · rw [if_neg (fun hc => h ((hf a b).mp hc)), if_neg h, List.map_cons,
        orderedInsert_map_of_rel r f hf a l]

/-- `insertionSort` commutes with a map that preserves the comparisons. -/
theorem insertionSort_map_of_rel {α : Type} (r : α → α → Prop) [DecidableRel r]
    (f : α → α) (hf : ∀ x y, r (f x) (f y) ↔ r x y) :
    ∀ l : List α,
      List.insertionSort r (l.map f) = (List.insertionSort r l).map f
  | [] => rfl
  | a :: l => by
    simp only [List.map_cons, List.insertionSort]
    rw [insertionSort_map_of_rel r f hf l, orderedInsert_map_of_rel r f hf]

/-- Dropping index `i` commutes with `map`. -/
theorem eraseIdx_map {α β : Type} (f : α → β) :
    ∀ (l : List α) (i : ℕ), (l.map f).eraseIdx i = (l.eraseIdx i).map f
  | [], _ => by simp
  | _ :: _, 0 => by simp
  | a :: l, i + 1 => by
    simp only [List.map_cons, List.eraseIdx_cons_succ, List.map_cons,
      eraseIdx_map f l i]

/-- Resolution never touches the roster fields. -/
theorem resolve_one_toStockRef (tickers : List String) (data : BatchData)
    (s : StockRef) : (resolve_one tickers data s).toStockRef = s := by
  unfold resolve_one
  rcases seriesFor tickers data s.code with _ | series
  · rfl
  · by_cases h : 2 ≤ (series.filterMap id).length
    · simp only [if_pos h]
    · simp only [if_neg h]

/-- Resolution depends on the batch data only through the series the loop
body sees for the stock's code. -/
theorem resolve_one_congr (t₁ t₂ : List String) (d₁ d₂ : BatchData)
    (s : StockRef) (h : seriesFor t₁ d₁ s.code = seriesFor t₂ d₂ s.code) :
    resolve_one t₁ d₁ s = resolve_one t₂ d₂ s := by
  unfold resolve_one
  rw [h]

/-- Claim C1: for every changePercent value (every rational and
absent/None/null), the client-side classifier embedded in the generated
document (`getColor`, `getTextColor`) returns exactly the same
(backgroundColor, textColor) pair as the server-side classifier
(`get_color`, `get_text_color`), so client-side re-rendering reproduces the
server's bucket assignment. -/
theorem C1_classifier_parity : ∀ co : Option ℚ, classifyJS co = classify co := by
  intro co
  cases co <;> rfl

/-- Claim C2, counterexample: at changePercent `-1` the code yields the
pale-red background with WHITE text (both `-1 ≤ -1` branches of
`get_text_color` fire), not the dark-gray text the claim's table row
`[-1, 0) → (pale red, dark gray)` asserts. -/
theorem C2_counterexample :
    classify (some (-1)) = ("#FFCDD2", "#FFFFFF") ∧
      classify (some (-1)) ≠ ("#FFCDD2", "#333333") := by
  decide

/-- Claim C2, amended: the classifier implements the §4.3 table with `≥`
tie semantics for the background, except that the text color at exactly
`-1` is white (dark-gray text exactly on `(-1, 1)`): absent → (gray,
white), `≥ 3` → (dark green, white), `[1, 3)` → (green, white), `[0, 1)` →
(pale green, dark gray), `(-1, 0)` → (pale red, dark gray), `-1` → (pale
red, white), `[-3, -1)` → (red, white), `< -3` → (dark red, white). -/
theorem C2_classifier_matches_amended_table :
    ∀ co : Option ℚ, classify co = classifySpecTable co := by
  intro co
  rcases co with _ | c
  · rfl
  simp only [classify, get_color, get_text_color, classifySpecTable]
  by_cases h3 : 3 ≤ c
  · rw [if_pos h3, if_pos (Or.inl h3), if_pos h3]
  rw [if_neg h3, if_neg h3]
  by_cases h1 : 1 ≤ c
  · have hns : ¬(3 ≤ c ∨ c ≤ -3) := by push_neg; constructor <;> linarith
    rw [if_pos h1, if_neg hns, if_pos (Or.inl h1), if_pos h1]
  rw [if_neg h1, if_neg h1]
  by_cases h0 : 0 ≤ c
  · have hns : ¬(3 ≤ c ∨ c ≤ -3) := by push_neg; constructor <;> linarith
    have hns2 : ¬(1 ≤ c ∨ c ≤ -1) := by push_neg; constructor <;> linarith
    rw [if_pos h0, if_neg hns, if_neg hns2, if_pos h0]
  rw [if_neg h0, if_neg h0]
  by_cases hm1e : c = -1
  · subst hm1e
    decide
  rw [if_neg hm1e]
  by_cases hm1 : -1 ≤ c
  · have hlt : -1 < c := lt_of_le_of_ne hm1 (fun h => hm1e h.symm)
    have hns : ¬(3 ≤ c ∨ c ≤ -3) := by push_neg; constructor <;> linarith
    have hns2 : ¬(1 ≤ c ∨ c ≤ -1) := by push_neg; constructor <;> linarith
    rw [if_pos hm1, if_neg hns, if_neg hns2, if_pos hlt]
  · push_neg at hm1
    have hnlt : ¬(-1 < c) := by push_neg; linarith
    rw [if_neg (not_le.mpr hm1), if_neg hnlt]
    by_cases hm3 : -3 ≤ c
    · rw [if_pos hm3, if_pos hm3]
      by_cases hc3 : c ≤ -3
      · rw [if_pos (Or.inr hc3)]
      · have hns : ¬(3 ≤ c ∨ c ≤ -3) := by push_neg at hc3 ⊢; constructor <;> linarith
        rw [if_neg hns, if_pos (Or.inr (le_of_lt hm1))]
    · push_neg at hm3
      rw [if_neg (not_le.mpr hm3), if_neg (not_le.mpr hm3),
        if_pos (Or.inr (le_of_lt hm3))]

/-- Claim C8: `get_color` is total onto the seven background colors (each
input hits exactly one of the seven pairwise-distinct colors), the bucket
index read off its cascade is non-decreasing in the change percentage, the
color is exactly the bucket's color, and the bucket boundaries are exact at
`3`, `1`, `0`, `-1` and `-3` (the threshold itself belongs to the upper
bucket, a millionth below it to the lower). -/
theorem C8_classifier_total_monotone_boundaries :
    (∀ co : Option ℚ, get_color co ∈ sevenColors) ∧
    sevenColors.Nodup ∧
    (∀ a b : ℚ, a ≤ b → bucket a ≤ bucket b) ∧
    (∀ c : ℚ, get_color (some c) = bucketColor (bucket c)) ∧
    get_color (some 3) = "#00873E" ∧
    get_color (some (2999999 / 1000000)) = "#4CAF50" ∧
    get_color (some 1) = "#4CAF50" ∧
    get_color (some (999999 / 1000000)) = "#C8E6C9" ∧
    get_color (some 0) = "#C8E6C9" ∧
    get_color (some (-1 / 1000000)) = "#FFCDD2" ∧
    get_color (some (-1)) = "#FFCDD2" ∧
    get_color (some (-1000001 / 1000000)) = "#F44336" ∧
    get_color (some (-3)) = "#F44336" ∧
    get_color (some (-3000001 / 1000000)) = "#B71C1C" := by
  refine ⟨?_, by decide, ?_, ?_, by norm_num [get_color], by norm_num [get_color],
    by norm_num [get_color], by norm_num [get_color], by norm_num [get_color],
    by norm_num [get_color], by norm_num [get_color], by norm_num [get_color],
    by norm_num [get_color], by norm_num [get_color]⟩
  · intro co
    rcases co with _ | c
    · simp [get_color, sevenColors]
    · simp only [get_color, sevenColors]
      split_ifs <;> simp
  · intro a b hab
    simp only [bucket]
    split_ifs <;> first | (exfalso; linarith) | norm_num
  · intro c
    simp only [get_color, bucket, bucketColor]
    split_ifs <;> rfl

/-- Claim C8, witness: the monotonicity part applied at `1/2 ≤ 2`. -/
theorem C8_witness : bucket (1 / 2) ≤ bucket 2 :=
  C8_classifier_total_monotone_boundaries.2.2.1 (1 / 2) 2 (by norm_num)

/-- A bad symbol resolves to the degraded record. -/
theorem resolve_one_of_bad (tickers : List String) (data : BatchData)
    (s : StockRef) (h : badFor tickers data s.code) :
    resolve_one tickers data s = absentResult s := by
  unfold badFor validCloses at h
  unfold resolve_one absentResult
  cases hs : seriesFor tickers data s.code with
  | none => rfl
  | some series =>
    rw [hs] at h
    simp only at h
    simp only [if_neg (not_le.mpr h)]

/-- Claim C9: in every result produced by `fetch_price_data`, `price` and
`change_pct` are both present or both absent. -/
theorem C9_price_change_together (stocks : List StockRef) (data : BatchData) :
    ∀ r ∈ fetch_price_data stocks data,
      (r.price.isSome ∧ r.change_pct.isSome) ∨
        (r.price = none ∧ r.change_pct = none) := by
  intro r hr
  simp only [fetch_price_data, List.mem_map] at hr
  obtain ⟨s, -, rfl⟩ := hr
  simp only [resolve_one]
  cases hs : seriesFor (tickersOf stocks) data s.code with
  | none => simp
  | some series =>
    dsimp only
    split_ifs <;> simp

/-- Claim C10: `fetch_price_data` returns exactly one result per roster
entry, in roster order, with `code`, `name` and `sector` unchanged; only
`price` and `change_pct` are added. -/
theorem C10_roster_preserved (stocks : List StockRef) (data : BatchData) :
    (fetch_price_data stocks data).map Result.toStockRef = stocks ∧
      (fetch_price_data stocks data).length = stocks.length := by
  constructor
  · unfold fetch_price_data
    rw [List.map_map]
    have h : (Result.toStockRef ∘ resolve_one (tickersOf stocks) data) = id :=
      funext fun s => resolve_one_toStockRef (tickersOf stocks) data s
    rw [h, List.map_id]
  · unfold fetch_price_data
    exact List.length_map stocks _

/-- Claim C5: whenever the series for a roster entry keeps at least two
valid closes after dropping missing entries, `fetch_price_data` yields
`price` = last close and `change_pct = (last - previous) / previous * 100`
for that entry. -/
theorem C5_resolver_formula (stocks : List StockRef) (data : BatchData)
    (i : ℕ) (hi : i < stocks.length) (series : List (Option ℚ))
    (hs : seriesFor (tickersOf stocks) data stocks[i].code = some series)
    (h2 : 2 ≤ (series.filterMap id).length) :
    (fetch_price_data stocks data)[i]? =
      some { toStockRef := stocks[i],
             price := some ((series.filterMap id).getD
               ((series.filterMap id).length - 1) 0),
             change_pct := some
               ((((series.filterMap id).getD ((series.filterMap id).length - 1) 0) -
                 ((series.filterMap id).getD ((series.filterMap id).length - 2) 0)) /
                ((series.filterMap id).getD ((series.filterMap id).length - 2) 0) *
                100) } := by
  unfold fetch_price_data
  rw [List.getElem?_map, List.getElem?_eq_getElem hi, Option.map_some']
  unfold resolve_one
  rw [hs]
  dsimp only
  rw [if_pos h2]

/-- A concrete roster entry for the witnesses. -/
def toyota : StockRef :=
  { code := "7203.T", name := "Toyota", sector := "Transportation" }

/-- The one-stock roster used by the concrete witnesses. -/
def stocks1 : List StockRef := [toyota]

/-- A batch response for `stocks1` with closes `[100, 100, 105]`. -/
def data1 : BatchData :=
  { single := some [some 100, some 100, some 105],
    grouped := fun _ => none }

/-- Claim C5, witness: closes `[100, 100, 105]` give `price = 105`,
`change_pct = +5`, and the classifier maps `+5` to the dark-green/white
bucket. -/
theorem C5_witness :
    (fetch_price_data stocks1 data1)[0]? =
      some { toStockRef := toyota, price := some 105, change_pct := some 5 } ∧
      classify (some 5) = ("#00873E", "#FFFFFF") := by
  constructor
  · have h := C5_resolver_formula stocks1 data1 0 (by decide)
      [some 100, some 100, some 105] rfl (by decide)
    rw [h]
    simp [stocks1, List.filterMap_cons]
    norm_num
  · decide

/-- Claim C4: a symbol whose lookup raises or whose series keeps fewer than
two valid closes degrades to the absent record at its own position, and —
whenever the re-run's batch data agrees on the surviving symbols' series,
as one download of the same provider state does — the results for all other
symbols are exactly the results of running the batch without the bad
symbol.  No per-symbol failure aborts the batch: `fetch_price_data` is
total and keeps one entry per roster element. -/
theorem C4_failure_isolation (stocks : List StockRef) (data data2 : BatchData)
    (i : ℕ) (hi : i < stocks.length)
    (hbad : badFor (tickersOf stocks) data stocks[i].code)
    (hagree : ∀ s ∈ stocks.eraseIdx i,
      seriesFor (tickersOf (stocks.eraseIdx i)) data2 s.code =
        seriesFor (tickersOf stocks) data s.code) :
    (fetch_price_data stocks data)[i]? = some (absentResult stocks[i]) ∧
      (fetch_price_data stocks data).eraseIdx i =
        fetch_price_data (stocks.eraseIdx i) data2 := by
  constructor
  · unfold fetch_price_data
    rw [List.getElem?_map, List.getElem?_eq_getElem hi, Option.map_some']
    rw [resolve_one_of_bad (tickersOf stocks) data stocks[i] hbad]
  · unfold fetch_price_data
    rw [eraseIdx_map (resolve_one (tickersOf stocks) data) stocks i]
    exact List.map_congr_left fun s hsmem =>
      (resolve_one_congr (tickersOf (stocks.eraseIdx i)) (tickersOf stocks)
        data2 data s (hagree s hsmem)).symm

/-- The two-stock roster used by the C4 witness: Sony plus one bad symbol. -/
def stocksW : List StockRef :=
  [{ code := "6758.T", name := "Sony", sector := "Electric Machinery" },
   { code := "9999.T", name := "Ghost", sector := "Electric Machinery" }]

/-- A batch response for `stocksW` that has a series only for Sony: the
lookup for `9999.T` raises. -/
def dataW : BatchData :=
  { single := none,
    grouped := fun c => if c = "6758.T" then some [some 100, some 110] else none }

/-- The batch response of the hypothetical re-run without the bad symbol:
a single-ticker download carrying the same Sony series. -/
def dataW2 : BatchData :=
  { single := some [some 100, some 110],
    grouped := fun _ => none }

/-- Claim C4, witness: with roster `[Sony, Ghost]` where the `9999.T`
lookup raises, position 1 degrades to the absent record and dropping the
bad symbol leaves Sony's result unchanged. -/
theorem C4_witness :
    (fetch_price_data stocksW dataW)[1]? = some (absentResult stocksW[1]) ∧
      (fetch_price_data stocksW dataW).eraseIdx 1 =
        fetch_price_data (stocksW.eraseIdx 1) dataW2 :=
  C4_failure_isolation stocksW dataW dataW2 1 (by decide)
    (by unfold badFor; decide) (by decide)

/-- A batch response with no data at all. -/
def dataNone : BatchData := { single := none, grouped := fun _ => none }

/-- Claim C9, witness: the invariant applied to the sole result of a run
whose download returned nothing. -/
theorem C9_witness :
    ((absentResult toyota).price.isSome ∧
        (absentResult toyota).change_pct.isSome) ∨
      ((absentResult toyota).price = none ∧
        (absentResult toyota).change_pct = none) :=
  C9_price_change_together stocks1 dataNone (absentResult toyota) (by decide)

/-- Claim C6: in the change-ordered client views, replacing every absent
changePercent by `0` does not change the arrangement — each record with
absent changePercent is ordered exactly as if its changePercent were `0`
(`(x.change_pct || 0)` coerces `null` to `0`). -/
theorem C6_absent_sorts_as_zero (data : List Result) :
    sortChangeDesc (data.map substZero) = (sortChangeDesc data).map substZero ∧
      sortChangeAsc (data.map substZero) = (sortChangeAsc data).map substZero := by
  have hkey : ∀ r : Result, changeKey (substZero r) = changeKey r := by
    intro r
    simp [substZero, changeKey]
  constructor
  · exact insertionSort_map_of_rel _ substZero
      (fun x y => by rw [hkey x, hkey y]) data
  · exact insertionSort_map_of_rel _ substZero
      (fun x y => by rw [hkey x, hkey y]) data

/-- An absent record: single valid close or provider failure. -/
def rNA : Result :=
  { code := "9983.T", name := "Fast Retailing", sector := "Retail Trade",
    price := none, change_pct := none }

/-- Claim C7, counterexample: for an absent record neither renderer emits
"N/A" as the price text — the price line is the empty string (the "N/A"
goes on the change line). -/
theorem C7_counterexample :
    ¬((serverTileParts rNA).price_str = "N/A" ∧
      (clientTileParts rNA).price_str = "N/A") := by
  decide

/-- Claim C7, amended: for every absent record both the server loop and the
client `makeTile` render the neutral-gray background with white text, emit
"N/A" as the change text and an empty price text. -/
theorem C7_absent_rendering (r : Result) (hp : r.price = none)
    (hc : r.change_pct = none) :
    serverTileParts r =
      { bg := "#9E9E9E", fg := "#FFFFFF", change_str := "N/A", price_str := "" } ∧
    clientTileParts r =
      { bg := "#9E9E9E", fg := "#FFFFFF", change_str := "N/A", price_str := "" } := by
  rw [serverTileParts, clientTileParts, hp, hc]
  exact ⟨rfl, rfl⟩

/-- Claim C7, witness: the amended rendering applied to a concrete absent
record. -/
theorem C7_witness :
    serverTileParts rNA =
      { bg := "#9E9E9E", fg := "#FFFFFF", change_str := "N/A", price_str := "" } ∧
    clientTileParts rNA =
      { bg := "#9E9E9E", fg := "#FFFFFF", change_str := "N/A", price_str := "" } :=
  C7_absent_rendering rNA rfl rfl

/-- Claim C3, amended: the server-rendered initial view orders sectors in
ascending order of the lexicographically smallest code string among their
members (Python's `min` over code strings), while the client-side `sector`
mode orders sectors in ascending order of the numerically smallest parsed
code; within each sector tiles appear in ascending order of code string in
both views. -/
theorem C3_sector_ordering (results : List Result) :
    (sector_order results).Sorted
        (fun a b => minCodeStr results a ≤ minCodeStr results b) ∧
      (∀ s, (serverSectorTiles results s).Sorted
        (fun a b => a.code ≤ b.code)) ∧
      (clientSectorOrder results).Sorted
        (fun a b =>
          minNumCode (stockData results) a ≤ minNumCode (stockData results) b) ∧
      (∀ s, (clientSectorItems results s).Sorted
        (fun a b => a.code ≤ b.code)) :=
  ⟨sorted_insertionSort_key (minCodeStr results) _,
   fun _ => sorted_insertionSort_key (fun r : Result => r.code) _,
   sorted_insertionSort_key (minNumCode (stockData results)) _,
   fun _ => sorted_insertionSort_key (fun r : Result => r.code) _⟩

/-- A stock with a three-digit code. -/
def exA : Result :=
  { code := "999.T", name := "Niner", sector := "Alpha",
    price := some 1, change_pct := some 0 }

/-- A stock with a four-digit code, numerically above but
lexicographically below `999.T`. -/
def exB : Result :=
  { code := "1000.T", name := "Kilo", sector := "Beta",
    price := some 1, change_pct := some 0 }

/-- A results list on which string-min and numeric-min sector order
disagree. -/
def exC3 : List Result := [exA, exB]

/-- Claim C3, counterexample: with member codes `999.T` (sector Alpha) and
`1000.T` (sector Beta), the server places Beta first — `"1000.T"` is the
lexicographically smaller string — so the server-rendered sector order is
not ascending in the numerically smallest code (1000 > 999). -/
theorem C3_counterexample :
    sector_order exC3 = ["Beta", "Alpha"] ∧
      ¬((sector_order exC3).Sorted
          (fun a b => minNumCode exC3 a ≤ minNumCode exC3 b)) := by
  have hle : ¬(("999.T" : String) ≤ "1000.T") := by
    rw [String.le_iff_toList_le]
    decide
  have horder : sector_order exC3 = ["Beta", "Alpha"] := by
    simp [sector_order, sectorKeys, exC3, exA, exB, membersOf, minCodeStr,
      List.insertionSort, List.orderedInsert, hle]
  refine ⟨horder, ?_⟩
  rw [horder]
  intro hsorted
  have hrel := List.rel_of_sorted_cons hsorted "Alpha" (by simp)
  simp [minNumCode, membersOf, exC3, exA, exB, parseIntJS] at hrel
